import Mathlib

/-!
# Verification of the snakery scene loop and SDL2 drawing adapter

Shallow embedding of `src/internal/scene/scene.go` and `src/pkg/grafio/sdl2.go`
(package `grafio`, interface in `src/pkg/grafio` / `src/unnamed/part_000`).

Go errors built with `fmt.Errorf` become `Err.str`; `errors.Wrap(err, msg)`
becomes `Err.wrap msg err`, so wrapping structure is preserved.  The SDL2
renderer itself is external (third-party `go-sdl2` bindings): each primitive
renderer call is modelled by an injected result, and the sequence of calls a
drawing operation makes is recorded as an explicit trace so that ordering and
"was this effect performed" questions are statable.
-/

/-- Go error values: a base error (`fmt.Errorf`) or an `errors.Wrap` layer. -/
inductive Err : Type
  | str : String → Err
  | wrap : String → Err → Err
deriving DecidableEq

/-- `grafio.RGBA` (src/unnamed/part_000): four `uint8` colour components.
No arithmetic is performed on them, so `Nat` is a faithful carrier. -/
structure RGBA : Type where
  R : Nat
  G : Nat
  B : Nat
  A : Nat
deriving DecidableEq

/-- `grafio.ColorWhite` (src/unnamed/part_000). -/
def ColorWhite : RGBA := ⟨255, 255, 255, 255⟩

/-- An `sdl.Rect` as passed to `FillRect`/`Copy`: `int32` coordinates. -/
structure Rect : Type where
  x : Int
  y : Int
  w : Int
  h : Int
deriving DecidableEq

/-- One primitive call on the external SDL renderer, recorded in traces. -/
inductive RCall : Type
  | clear
  | setDrawColor (c : RGBA)
  | fillRectNone
  | flip
deriving DecidableEq

/-- The external SDL renderer (`*sdl.Renderer`): the outcome of each primitive
call is injected as data, since the real behaviour lives outside the repo. -/
structure Renderer : Type where
  clearRes : Except Err Unit
  setDrawColorRes : RGBA → Except Err Unit
  fillRectNoneRes : Except Err Unit
  fillRectRes : Rect → Except Err Unit
  copyRes : Except Err Unit
  createTextureRes : Except Err Unit
  renderTextRes : Except Err Unit
  destroyTextureRes : Except Err Unit

/-- `grafio.Sdl2Draw` (src/pkg/grafio/sdl2.go): renderer handle, loaded font
and texture names (the map keys; the `*ttf.Font` / `*sdl.Texture` values are
external handles), the current main font, and the screen dimensions. -/
structure Sdl2Draw : Type where
  r : Renderer
  fonts : List String
  textures : List String
  mainFont : String
  w : Int
  h : Int

/-- `NewSdl2Draw` (sdl2.go): `prepareSdl2` is external window/renderer setup,
so its outcome is injected; on failure the error is wrapped with
"could not prepare sdl2 engine", on success the struct is built with empty
font/texture maps and the given font name and dimensions. -/
def NewSdl2Draw (font : String) (w h : Int) (prep : Except Err Renderer) : Except Err Sdl2Draw :=
  match prep with
  | .error e => .error (Err.wrap "could not prepare sdl2 engine" e)
  | .ok r => .ok { r := r, fonts := [], textures := [], mainFont := font, w := w, h := h }

/-- `Sdl2Draw.ScreenWidth` (sdl2.go). -/
def Sdl2Draw.ScreenWidth (s : Sdl2Draw) : Int := s.w

/-- `Sdl2Draw.ScreenHeight` (sdl2.go). -/
def Sdl2Draw.ScreenHeight (s : Sdl2Draw) : Int := s.h

/-- `Sdl2Draw.SetMainFont` (sdl2.go): error when the font name is not a key of
the loaded-fonts map, otherwise record it as the main font.  The Go method
mutates its receiver; here it returns the result together with the updated
struct (unchanged on the error path, as in the source). -/
def Sdl2Draw.SetMainFont (s : Sdl2Draw) (fontFileName : String) : Except Err Unit × Sdl2Draw :=
  if s.fonts.contains fontFileName then
    (.ok (), { s with mainFont := fontFileName })
  else
    (.error (Err.str ("font " ++ fontFileName ++ " is not loaded")), s)

/-- `Sdl2Draw.Background` (sdl2.go) instrumented with the renderer-call trace:
`SetDrawColor` then `FillRect(nil)`, wrapping either failure. -/
def Sdl2Draw.BackgroundT (s : Sdl2Draw) (rgba : RGBA) : Except Err Unit × List RCall :=
  match s.r.setDrawColorRes rgba with
  | .error e => (.error (Err.wrap "couldn't set color" e), [RCall.setDrawColor rgba])
  | .ok _ =>
    match s.r.fillRectNoneRes with
    | .error e =>
      (.error (Err.wrap "couldn't fill rect" e), [RCall.setDrawColor rgba, RCall.fillRectNone])
    | .ok _ => (.ok (), [RCall.setDrawColor rgba, RCall.fillRectNone])

/-- `Sdl2Draw.Background` (sdl2.go): the returned error value alone. -/
def Sdl2Draw.Background (s : Sdl2Draw) (rgba : RGBA) : Except Err Unit :=
  (s.BackgroundT rgba).1

/-- `Sdl2Draw.ColorRect` (sdl2.go): `SetDrawColor` then `FillRect(&rect)`.
State-passing form; the source assigns no struct field, so the struct comes
back unchanged on every path. -/
def Sdl2Draw.ColorRect (s : Sdl2Draw) (x y w h : Int) (rgba : RGBA) :
    Except Err Unit × Sdl2Draw :=
  match s.r.setDrawColorRes rgba with
  | .error e => (.error (Err.wrap "could not set draw color" e), s)
  | .ok _ =>
    match s.r.fillRectRes ⟨x, y, w, h⟩ with
    | .error e => (.error (Err.wrap "could not fill rect" e), s)
    | .ok _ => (.ok (), s)

/-- `Sdl2Draw.TextureRect` (sdl2.go): error when the texture name is not
loaded, otherwise `Copy` the texture into the given rectangle. -/
def Sdl2Draw.TextureRect (s : Sdl2Draw) (x y w h : Int) (texture : String) :
    Except Err Unit × Sdl2Draw :=
  if s.textures.contains texture then
    match s.r.copyRes with
    | .error e => (.error (Err.wrap "could not copy texture" e), s)
    | .ok _ => (.ok (), s)
  else
    (.error (Err.str ("texture " ++ texture ++ " is not found")), s)

/-- `grafio.TextAlign` (src/unnamed/part_000): an integer tag. -/
def TextAlign : Type := Int

/-- `grafio.Right` (src/unnamed/part_000). -/
def Right : TextAlign := (2 : Int)

/-- `grafio.TextOpts` (src/unnamed/part_000).  `XCof`/`YCof` are `float32`
coefficients that only feed the pixel geometry handed to the renderer; the
geometry is abstracted into the injected `copyRes`, so they are carried
opaquely as integers here. -/
structure TextOpts : Type where
  Size : Int
  XCof : Int
  YCof : Int
  Color : RGBA
  Align : TextAlign

/-- `Sdl2Draw.Text` (sdl2.go): render the string with the main font, make a
texture, `Copy` it; the deferred `texture.Destroy()` overrides the return
value with a wrapped error when it fails — also when `Copy` already failed.
The rectangle geometry (`sizeCal`, alignment shift) only parametrises the
external `Copy` call and is absorbed into `copyRes`. -/
def Sdl2Draw.Text (s : Sdl2Draw) (txt : String) (opts : TextOpts) :
    Except Err Unit × Sdl2Draw :=
  match s.r.renderTextRes with
  | .error e => (.error (Err.wrap "could not render title" e), s)
  | .ok _ =>
    match s.r.createTextureRes with
    | .error e => (.error (Err.wrap "could not create texture" e), s)
    | .ok _ =>
      let inner : Except Err Unit :=
        match s.r.copyRes with
        | .error e => .error (Err.wrap "could not copy texture" e)
        | .ok _ => .ok ()
      match s.r.destroyTextureRes with
      | .error e => (.error (Err.wrap "could not destroy texture" e), s)
      | .ok _ => (inner, s)

/-- The message text of an error value, as Go's `err.Error()` renders it:
`pkg/errors.Wrap` prints "msg: cause".  Used where the source embeds an
error into a new `fmt.Errorf` string with `%v`. -/
def Err.message : Err → String
  | .str m => m
  | .wrap m e => m ++ ": " ++ e.message

/-- The textures loop of `Sdl2Draw.LoadResources` (sdl2.go): for each
directory entry `(name, isDir)` in order, skip directories, `img.Load` the
file and make a texture from it (both external, outcomes injected); either
failure returns at once a fresh "failed to create texture" error — keeping
the map entries already written — and success registers the name before the
next entry. -/
def loadTexturesLoop (loadImage createTexture : String → Except Err Unit)
    (acc : List String) : List (String × Bool) → Except Err Unit × List String
  | [] => (.ok (), acc)
  | entry :: rest =>
    if entry.2 then loadTexturesLoop loadImage createTexture acc rest
    else
      match loadImage entry.1 with
      | .error e =>
        (.error (Err.str ("failed to create texture: " ++ e.message ++ "\n")), acc)
      | .ok _ =>
        match createTexture entry.1 with
        | .error e =>
          (.error (Err.str ("failed to create texture: " ++ e.message ++ "\n")), acc)
        | .ok _ => loadTexturesLoop loadImage createTexture (acc ++ [entry.1]) rest

/-- The fonts loop of `Sdl2Draw.LoadResources` (sdl2.go): for every directory
entry (no directory check here, as in the source), `ttf.OpenFont` it
(external, outcome injected); a failure returns at once a fresh
"could not load font" error keeping the entries already written, and success
registers the name. -/
def loadFontsLoop (openFont : String → Except Err Unit)
    (acc : List String) : List (String × Bool) → Except Err Unit × List String
  | [] => (.ok (), acc)
  | entry :: rest =>
    match openFont entry.1 with
    | .error e => (.error (Err.str ("could not load font: " ++ e.message)), acc)
    | .ok _ => loadFontsLoop openFont (acc ++ [entry.1]) rest

/-- `Sdl2Draw.LoadResources` (sdl2.go): `ReadDir` the textures path (failure
wrapped "could not read dir"), run the textures loop, then `ReadDir` the
fonts path (same wrap) and run the fonts loop.  The directory listings — as
`(name, isDir)` entries — and the per-file loader outcomes are injected,
since file system and SDL are external.  Each of the four error paths
returns the struct with the map writes made so far; the returned destroy
closure is process-shutdown plumbing and is not modelled. -/
def Sdl2Draw.LoadResources (s : Sdl2Draw)
    (texturesDir fontsDir : Except Err (List (String × Bool)))
    (loadImage createTexture openFont : String → Except Err Unit) :
    Except Err Unit × Sdl2Draw :=
  match texturesDir with
  | .error e => (.error (Err.wrap "could not read dir" e), s)
  | .ok textureEntries =>
    let tres := loadTexturesLoop loadImage createTexture s.textures textureEntries
    let s1 := { s with textures := tres.2 }
    match tres.1 with
    | .error e => (.error e, s1)
    | .ok _ =>
      match fontsDir with
      | .error e => (.error (Err.wrap "could not read dir" e), s1)
      | .ok fontEntries =>
        let fres := loadFontsLoop openFont s1.fonts fontEntries
        let s2 := { s1 with fonts := fres.2 }
        match fres.1 with
        | .error e => (.error e, s2)
        | .ok _ => (.ok (), s2)

/-- Result of one `Sdl2Draw.Present` transaction, instrumented: the returned
error value, whether the render body `f` was invoked, whether the back buffer
was flipped (`r.Present()` reached), and the renderer calls made. -/
structure PresentResult : Type where
  res : Except Err Unit
  fInvoked : Bool
  flipped : Bool
  calls : List RCall

/-- `Sdl2Draw.Present` (sdl2.go) instrumented: `Clear`, then
`Background(ColorWhite)`, then the user body `f`, and only if all three
succeed the buffer flip `r.Present()`; each failure wraps and returns. -/
def Sdl2Draw.PresentT (s : Sdl2Draw) (f : Unit → Except Err Unit) : PresentResult :=
  match s.r.clearRes with
  | .error e =>
    { res := .error (Err.wrap "could not clear the renderer" e),
      fInvoked := false, flipped := false, calls := [RCall.clear] }
  | .ok _ =>
    let bg := s.BackgroundT ColorWhite
    match bg.1 with
    | .error e =>
      { res := .error (Err.wrap "could not set the background" e),
        fInvoked := false, flipped := false, calls := RCall.clear :: bg.2 }
    | .ok _ =>
      match f () with
      | .error e =>
        { res := .error (Err.wrap "could not execute user given function" e),
          fInvoked := true, flipped := false, calls := RCall.clear :: bg.2 }
      | .ok _ =>
        { res := .ok (), fInvoked := true, flipped := true,
          calls := RCall.clear :: bg.2 ++ [RCall.flip] }

/-- `Sdl2Draw.Present` (sdl2.go): the returned error value alone. -/
def Sdl2Draw.Present (s : Sdl2Draw) (f : Unit → Except Err Unit) : Except Err Unit :=
  (s.PresentT f).res

/-!
## The scene (src/internal/scene/scene.go)

The game objects live in the internal `object` package, which is not under
`src/`; only their use sites in scene.go are.  They are therefore abstracted:
a `GameObject` carries its identity and, for one tick, the responses of its
optional capabilities (the state its `Update()` would report, whether it is
`Handleable`, and the result its `Paint(drawer)` would return).  The scene
code itself — the loop, the registry lookup, update short-circuiting, the
render pass and exit handling — is translated from scene.go.
-/

/-- Modelled from the spec: `object.GameState` (the `object` package is not
under src/) is an enumerated value with states Menu, Running, Dead; as a Go
integer-backed enumeration it also admits values outside the three named
constants. -/
structure GameState : Type where
  val : Nat
deriving DecidableEq

/-- Modelled from the spec: the Menu state constant (`object.MenuScreen`). -/
def MenuScreen : GameState := ⟨0⟩

/-- Modelled from the spec: the Running state constant (`object.SnakeRunning`). -/
def SnakeRunning : GameState := ⟨1⟩

/-- Modelled from the spec: the Dead state constant (`object.DeadSnake`). -/
def DeadSnake : GameState := ⟨2⟩

/-- The SDL events the scene inspects (third-party `go-sdl2`): a quit event,
a keyboard event with a pressed/released state and a key symbol, or any
other event kind. -/
inductive Event : Type
  | quitEvent
  | keyboardEvent (state : Nat) (sym : Nat)
  | otherEvent (tag : Nat)
deriving DecidableEq

/-- `sdl.PRESSED` (SDL2 constant). -/
def PRESSED : Nat := 1

/-- `sdl.K_ESCAPE` (SDL2 constant). -/
def K_ESCAPE : Nat := 27

/-- An abstract game object as the scene sees it during one tick: its
identity (the Go pointer), the state its `Update()` call would report this
tick when it implements `object.Updateable` (`none` when it does not), whether
it implements `object.Handleable`, and the result its `Paint(drawer)` call
would return this frame. -/
structure GameObject : Type where
  id : Nat
  update? : Option GameState
  handleable : Bool
  paintRes : Except Err Unit

/-- `s.paints[s.state]` for the Go map: association-list lookup returning the
zero value `nil` (the empty list) when the key is absent. -/
def lookupPaints : List (GameState × List GameObject) → GameState → List GameObject
  | [], _ => []
  | p :: rest, k => if p.1 = k then p.2 else lookupPaints rest k

/-- `scene.Scene` (scene.go): the drawer, the current state, and the paints
registry.  The `r`/`w` SDL handle fields are never set by `New` and never
read; they are omitted. -/
structure Scene : Type where
  drawer : Sdl2Draw
  state : GameState
  paints : List (GameState × List GameObject)

/-- `scene.New` (scene.go): construction of the five objects is in the
missing `object` package (modelled from the spec: snake, apple, score, dead
screen and menu screen are built from the screen dimensions and each other),
so the objects are parameters; the scene itself starts in `MenuScreen` with
the three-entry paints registry, and the returned error is always nil. -/
def Scene.New (d : Sdl2Draw) (snake apple score deadScreen menuScreen : GameObject) :
    Except Err Scene :=
  .ok { drawer := d,
        state := MenuScreen,
        paints := [(MenuScreen, [menuScreen]),
                   (SnakeRunning, [snake, apple, score]),
                   (DeadSnake, [deadScreen])] }

/-- The loop body of `Scene.update` (scene.go), instrumented with the ids of
the objects whose `Update()` is invoked: for each `Updateable` object in
order, call `Update()`; the first reported state different from the current
one is returned immediately, so later objects are not reached. -/
def updateLoopT (cur : GameState) : List GameObject → GameState × List Nat
  | [] => (cur, [])
  | o :: rest =>
    match o.update? with
    | some st =>
      if st ≠ cur then (st, [o.id])
      else
        let p := updateLoopT cur rest
        (p.1, o.id :: p.2)
    | none => updateLoopT cur rest

/-- `Scene.update` (scene.go): the state returned for this tick. -/
def Scene.update (s : Scene) : GameState :=
  (updateLoopT s.state (lookupPaints s.paints s.state)).1

/-- The ids of the objects whose `Update()` is invoked by `Scene.update`. -/
def Scene.updateInvoked (s : Scene) : List Nat :=
  (updateLoopT s.state (lookupPaints s.paints s.state)).2

/-- `Scene.handleExit` (scene.go): true on a quit event, and on a keyboard
event whose state is `PRESSED` and whose key symbol is `K_ESCAPE`; every
other event (including key releases and other event kinds) yields false. -/
def Scene.handleExit (_ : Scene) : Event → Bool
  | .quitEvent => true
  | .keyboardEvent st sym =>
    if st ≠ PRESSED then false
    else if sym = K_ESCAPE then true else false
  | .otherEvent _ => false

/-- The render body closure of `Scene.paint` (scene.go), instrumented with
the ids of the objects whose `Paint` is invoked: paint each object in order,
returning the first failure wrapped with "failed to paint" and skipping the
remaining objects. -/
def paintBodyT : List GameObject → Except Err Unit × List Nat
  | [] => (.ok (), [])
  | o :: rest =>
    match o.paintRes with
    | .error e => (.error (Err.wrap "failed to paint" e), [o.id])
    | .ok _ =>
      let p := paintBodyT rest
      (p.1, o.id :: p.2)

/-- Result of one `Scene.paint` call, instrumented: the returned error value,
the ids of the objects actually painted this frame, and whether the back
buffer was flipped. -/
structure PaintOut : Type where
  res : Except Err Unit
  painted : List Nat
  flipped : Bool

/-- `Scene.paint` (scene.go) instrumented: run the render body through the
drawer's `Present` transaction and wrap a failing transaction with
"failed to present"; the body's paint calls happen only if `Present`
invokes it. -/
def Scene.paintT (s : Scene) : PaintOut :=
  let body := paintBodyT (lookupPaints s.paints s.state)
  let pr := s.drawer.PresentT (fun _ => body.1)
  { res := match pr.res with
      | .error e => .error (Err.wrap "failed to present" e)
      | .ok _ => .ok (),
    painted := if pr.fInvoked then body.2 else [],
    flipped := pr.flipped }

/-- `Scene.paint` (scene.go): the returned error value alone. -/
def Scene.paint (s : Scene) : Except Err Unit :=
  (s.paintT).res

/-- One work item of the `select` in `Scene.Run` (scene.go): an input event
received on the events channel, or one firing of the 55 ms ticker. -/
inductive WorkItem : Type
  | ev (e : Event)
  | tick
deriving DecidableEq

/-- Which branch of the `select` one loop iteration took. -/
inductive IterAction : Type
  | handledEvent (e : Event)
  | processedTick
deriving DecidableEq

/-- The observable output of one iteration of the `Scene.Run` loop: the
branch taken, the ids of objects that received `HandleEvent`, the ids whose
`Update()` ran, the ids painted, the error sent on the error channel (if
any), and whether `os.Exit(0)` was reached. -/
structure IterOut : Type where
  action : IterAction
  dispatched : List Nat
  updatedTrace : List Nat
  painted : List Nat
  emitted : Option Err
  exited : Bool

/-- One iteration of the `for { select { ... } }` loop of `Scene.Run`
(scene.go).  Event branch: dispatch the event to every `Handleable` object of
the current state's active set in order, then check `handleExit` and exit the
process when it reports true; the scene's own fields are not assigned.  Tick
branch: assign `s.state = s.update()`, then run one render pass, sending a
failing frame's error on the error channel. -/
def loopIter (s : Scene) : WorkItem → Scene × IterOut
  | .ev e =>
    (s, { action := .handledEvent e,
          dispatched :=
            ((lookupPaints s.paints s.state).filter (fun o => o.handleable)).map GameObject.id,
          updatedTrace := [],
          painted := [],
          emitted := none,
          exited := s.handleExit e })
  | .tick =>
    let s2 : Scene := { s with state := s.update }
    let po := s2.paintT
    (s2, { action := .processedTick,
           dispatched := [],
           updatedTrace := s.updateInvoked,
           painted := po.painted,
           emitted := match po.res with
             | .error e2 => some e2
             | .ok _ => none,
           exited := false })

/-- The `Scene.Run` loop (scene.go) over a finite schedule of work items:
each iteration consumes exactly one item; `os.Exit(0)` stops the loop
immediately, otherwise the next iteration proceeds with the updated scene. -/
def loopRun (s : Scene) : List WorkItem → Scene × List IterOut
  | [] => (s, [])
  | w :: ws =>
    let r := loopIter s w
    if r.2.exited then (r.1, [r.2])
    else
      let rest := loopRun r.1 ws
      (rest.1, r.2 :: rest.2)

/-!
## Concrete instances used to exercise the theorems
-/

/-- A renderer whose every primitive call succeeds. -/
def okRenderer : Renderer :=
  { clearRes := .ok (), setDrawColorRes := fun _ => .ok (), fillRectNoneRes := .ok (),
    fillRectRes := fun _ => .ok (), copyRes := .ok (), createTextureRes := .ok (),
    renderTextRes := .ok (), destroyTextureRes := .ok () }

/-- A renderer whose `Clear` call fails. -/
def badClearRenderer : Renderer :=
  { okRenderer with clearRes := .error (Err.str "boom") }

/-- A drawer over `okRenderer` with one loaded font. -/
def okDrawer : Sdl2Draw :=
  { r := okRenderer, fonts := ["arial.ttf"], textures := [], mainFont := "arial.ttf",
    w := 500, h := 500 }

/-- A drawer whose `Clear` call fails. -/
def badClearDrawer : Sdl2Draw :=
  { okDrawer with r := badClearRenderer }

/-- A render body that succeeds. -/
def okBody : Unit → Except Err Unit := fun _ => .ok ()

/-- An object that reports a transition to `SnakeRunning` on update. -/
def menuStartObj : GameObject :=
  { id := 1, update? := some SnakeRunning, handleable := true, paintRes := .ok () }

/-- An updateable object that reports no transition out of `MenuScreen`. -/
def idleObj : GameObject :=
  { id := 2, update? := some MenuScreen, handleable := false, paintRes := .ok () }

/-- An object whose `Paint` fails. -/
def badPaintObj : GameObject :=
  { id := 3, update? := none, handleable := false, paintRes := .error (Err.str "disk full") }

/-- A scene in the menu state with a transitioning first object. -/
def sampleScene : Scene :=
  { drawer := okDrawer, state := MenuScreen, paints := [(MenuScreen, [menuStartObj, idleObj])] }

/-- A scene whose second active object fails to paint. -/
def failScene : Scene :=
  { drawer := okDrawer, state := MenuScreen, paints := [(MenuScreen, [menuStartObj, badPaintObj])] }

/-- A scene whose current state has no entry in the paints registry. -/
def offScene : Scene :=
  { drawer := okDrawer, state := ⟨9⟩, paints := [(MenuScreen, [menuStartObj])] }

/-!
## Helper lemmas
-/

theorem updateLoopT_append_of_cur (cur : GameState) (pre rest : List GameObject)
    (hpre : ∀ o ∈ pre, ∀ st, o.update? = some st → st = cur) :
    updateLoopT cur (pre ++ rest) =
      ((updateLoopT cur rest).1,
        (pre.filter (fun o => o.update?.isSome)).map GameObject.id ++ (updateLoopT cur rest).2) := by
  induction pre with
  | nil => simp [updateLoopT]
  | cons o pre ih =>
    have ho := hpre o (by simp)
    have ih2 := ih (fun o2 h2 => hpre o2 (by simp [h2]))
    cases h : o.update? with
    | none => simp [updateLoopT, h, ih2]
    | some st =>
      have hst : st = cur := ho st h
      subst hst
      simp [updateLoopT, h, ih2]

theorem paintBodyT_append_of_ok (pre rest : List GameObject)
    (hpre : ∀ o ∈ pre, o.paintRes = .ok ()) :
    paintBodyT (pre ++ rest) =
      ((paintBodyT rest).1, pre.map GameObject.id ++ (paintBodyT rest).2) := by
  induction pre with
  | nil => simp [paintBodyT]
  | cons o pre ih =>
    have ho := hpre o (by simp)
    have ih2 := ih (fun o2 h2 => hpre o2 (by simp [h2]))
    simp [paintBodyT, ho, ih2]

theorem lookupPaints_eq_nil_of_no_key (m : List (GameState × List GameObject)) (k : GameState)
    (h : ∀ p ∈ m, p.1 ≠ k) : lookupPaints m k = [] := by
  induction m with
  | nil => rfl
  | cons p m ih =>
    have hp := h p (by simp)
    simp only [lookupPaints, if_neg hp]
    exact ih (fun q hq => h q (by simp [hq]))

/-!
## Claims
-/

/-- C1: `Scene.update` short-circuits.  If no updateable object of the active
set reports a state different from the current one, `update` returns the
current state unchanged; and whenever the active set splits as
`pre ++ o :: post` with every updateable object of `pre` reporting the
current state and `o` reporting a different state `st`, the tick's result is
`st` and the `Update()` invocations are exactly the updateable objects of
`pre` followed by `o` — no object of `post` is invoked. -/
theorem scene_update_short_circuits (s : Scene) :
    ((∀ o ∈ lookupPaints s.paints s.state, ∀ st, o.update? = some st → st = s.state) →
      s.update = s.state) ∧
    (∀ pre o post st,
      lookupPaints s.paints s.state = pre ++ o :: post →
      o.update? = some st → st ≠ s.state →
      (∀ o2 ∈ pre, ∀ st2, o2.update? = some st2 → st2 = s.state) →
      s.update = st ∧
        s.updateInvoked =
          (pre.filter (fun o2 => o2.update?.isSome)).map GameObject.id ++ [o.id]) := by
  constructor
  · intro hall
    have h := updateLoopT_append_of_cur s.state (lookupPaints s.paints s.state) [] hall
    simp only [List.append_nil] at h
    simp [Scene.update, h, updateLoopT]
  · intro pre o post st hsplit ho hne hpre
    have hrest : updateLoopT s.state (o :: post) = (st, [o.id]) := by
      simp [updateLoopT, ho, hne]
    have h := updateLoopT_append_of_cur s.state pre (o :: post) hpre
    rw [hrest] at h
    constructor
    · simp [Scene.update, hsplit, h]
    · simp [Scene.updateInvoked, hsplit, h]

/-- C1 witness: in a menu scene whose first active object reports Running,
the tick transitions to Running and only that object's update runs. -/
theorem scene_update_short_circuits_witness :
    sampleScene.update = SnakeRunning ∧ sampleScene.updateInvoked = [1] := by
  have h := (scene_update_short_circuits sampleScene).2 [] menuStartObj [idleObj] SnakeRunning
    rfl rfl (by decide) (by simp)
  simpa [menuStartObj] using h

/-- C5: a freshly constructed scene starts in the Menu state, its paints
registry has exactly the keys Menu, Running, Dead in that order, and each
key maps to its object set (menu screen; snake, apple, score; dead screen). -/
theorem scene_new_initial (d : Sdl2Draw) (snake apple score deadScreen menuScreen : GameObject) :
    ∃ sc, Scene.New d snake apple score deadScreen menuScreen = .ok sc ∧
      sc.state = MenuScreen ∧
      sc.paints.map Prod.fst = [MenuScreen, SnakeRunning, DeadSnake] ∧
      lookupPaints sc.paints MenuScreen = [menuScreen] ∧
      lookupPaints sc.paints SnakeRunning = [snake, apple, score] ∧
      lookupPaints sc.paints DeadSnake = [deadScreen] := by
  have h01 : MenuScreen ≠ SnakeRunning := by decide
  have h02 : MenuScreen ≠ DeadSnake := by decide
  have h12 : SnakeRunning ≠ DeadSnake := by decide
  refine ⟨_, rfl, rfl, rfl, ?_, ?_, ?_⟩ <;>
    simp [Scene.New, lookupPaints, h01, h02, h12]

/-- C8: when the current state has no entry in the paints registry, the Go
map lookup yields the empty (nil) set, so `Scene.update` returns the state
unchanged and the render body of `Scene.paint` paints zero objects and
succeeds — no error or panic branch exists for the missing key. -/
theorem scene_total_on_unmapped_state (s : Scene)
    (h : ∀ p ∈ s.paints, p.1 ≠ s.state) :
    s.update = s.state ∧
      paintBodyT (lookupPaints s.paints s.state) = (.ok (), []) := by
  have hl := lookupPaints_eq_nil_of_no_key s.paints s.state h
  simp [Scene.update, hl, updateLoopT, paintBodyT]

/-- C8 witness: a scene in the unmapped state 9 keeps its state on update and
its render body succeeds painting nothing. -/
theorem scene_total_on_unmapped_state_witness :
    offScene.update = ⟨9⟩ ∧
      paintBodyT (lookupPaints offScene.paints offScene.state) = (.ok (), []) := by
  refine scene_total_on_unmapped_state offScene ?_
  intro p hp
  simp only [offScene, List.mem_singleton] at hp
  subst hp
  decide

/-- C4: `handleExit` is true exactly on a quit event or a pressed-Escape
keyboard event; when it is true the event iteration ends the loop at once
(`os.Exit(0)`), and on every other event the iteration emits no error, does
not exit, and the loop goes on with the remaining work items. -/
theorem scene_exit_condition (s : Scene) (e : Event) :
    (s.handleExit e = true ↔
      e = Event.quitEvent ∨ e = Event.keyboardEvent PRESSED K_ESCAPE) ∧
    (∀ ws, s.handleExit e = true →
      loopRun s (WorkItem.ev e :: ws) = (s, [(loopIter s (WorkItem.ev e)).2])) ∧
    (∀ ws, s.handleExit e = false →
      (loopIter s (WorkItem.ev e)).2.emitted = none ∧
      (loopIter s (WorkItem.ev e)).2.exited = false ∧
      loopRun s (WorkItem.ev e :: ws) =
        ((loopRun s ws).1, (loopIter s (WorkItem.ev e)).2 :: (loopRun s ws).2)) := by
  refine ⟨?_, ?_, ?_⟩
  · cases e with
    | quitEvent => simp [Scene.handleExit]
    | keyboardEvent st sym =>
      simp only [Scene.handleExit, PRESSED, K_ESCAPE]
      by_cases h1 : st = 1
      · by_cases h2 : sym = 27
        · subst h1
          subst h2
          simp
        · simp [h1, h2]
      · simp [h1]
    | otherEvent t => simp [Scene.handleExit]
  · intro ws h
    simp [loopRun, loopIter, h]
  · intro ws h
    refine ⟨rfl, ?_, ?_⟩ <;> simp [loopRun, loopIter, h]

/-- C4 witness: a pressed-Escape keyboard event stops the loop immediately,
with no further work item processed. -/
theorem scene_exit_condition_witness :
    loopRun sampleScene (WorkItem.ev (Event.keyboardEvent PRESSED K_ESCAPE) :: [WorkItem.tick]) =
      (sampleScene, [(loopIter sampleScene (WorkItem.ev (Event.keyboardEvent PRESSED K_ESCAPE))).2]) := by
  refine (scene_exit_condition sampleScene (Event.keyboardEvent PRESSED K_ESCAPE)).2.1
    [WorkItem.tick] ?_
  decide

/-- C6: an event iteration returns the scene record unchanged (in particular
its `state` field and its paints registry); a tick iteration keeps the
registry and the drawer and assigns the state exactly once, to the result of
`Scene.update`; and over any run of the loop the paints registry stays what
it was at construction. -/
theorem scene_state_frame_conditions (s : Scene) :
    (∀ e, (loopIter s (WorkItem.ev e)).1 = s) ∧
    ((loopIter s WorkItem.tick).1.paints = s.paints ∧
      (loopIter s WorkItem.tick).1.drawer = s.drawer ∧
      (loopIter s WorkItem.tick).1.state = s.update) ∧
    (∀ ws, (loopRun s ws).1.paints = s.paints) := by
  refine ⟨fun e => rfl, ⟨rfl, rfl, rfl⟩, ?_⟩
  intro ws
  induction ws generalizing s with
  | nil => rfl
  | cons w ws ih =>
    cases w with
    | ev e =>
      by_cases h : s.handleExit e = true
      · simp [loopRun, loopIter, h]
      · simp only [Bool.not_eq_true] at h
        simp [loopRun, loopIter, h, ih]
    | tick =>
      simp [loopRun, loopIter, ih]

/-- C7: each loop iteration consumes exactly one work item and takes exactly
one branch: an event iteration records only event work (no update, no paint,
no emitted error) and a tick iteration records only tick work (no event
dispatch, never an exit); a run that never exits produces exactly one
iteration record per work item, and an exiting run stops early. -/
theorem scene_one_work_item_per_iteration (s : Scene) :
    (∀ e, (loopIter s (WorkItem.ev e)).2.action = IterAction.handledEvent e ∧
      (loopIter s (WorkItem.ev e)).2.updatedTrace = [] ∧
      (loopIter s (WorkItem.ev e)).2.painted = [] ∧
      (loopIter s (WorkItem.ev e)).2.emitted = none) ∧
    ((loopIter s WorkItem.tick).2.action = IterAction.processedTick ∧
      (loopIter s WorkItem.tick).2.dispatched = [] ∧
      (loopIter s WorkItem.tick).2.exited = false) ∧
    (∀ ws, (loopRun s ws).2.length ≤ ws.length) ∧
    (∀ ws, (∀ out ∈ (loopRun s ws).2, out.exited = false) →
      (loopRun s ws).2.length = ws.length) := by
  refine ⟨fun e => ⟨rfl, rfl, rfl, rfl⟩, ⟨rfl, rfl, rfl⟩, ?_, ?_⟩
  · intro ws
    induction ws generalizing s with
    | nil => simp [loopRun]
    | cons w ws ih =>
      simp only [loopRun]
      split
      · simp
      · simpa using Nat.succ_le_succ (ih _)
  · intro ws
    induction ws generalizing s with
    | nil => intro _; rfl
    | cons w ws ih =>
      intro hall
      simp only [loopRun] at hall ⊢
      by_cases hex : (loopIter s w).2.exited = true
      · rw [if_pos hex] at hall
        have h1 := hall (loopIter s w).2 (List.mem_singleton_self _)
        rw [h1] at hex
        cases hex
      · rw [if_neg hex] at hall ⊢
        have h2 := ih (loopIter s w).1
          (fun out hout => hall out (List.mem_cons_of_mem _ hout))
        simpa using h2

/-- C7 witness: a one-event schedule that does not exit yields exactly one
iteration record. -/
theorem scene_one_work_item_per_iteration_witness :
    (loopRun sampleScene [WorkItem.ev (Event.otherEvent 0)]).2.length = 1 := by
  refine (scene_one_work_item_per_iteration sampleScene).2.2.2
    [WorkItem.ev (Event.otherEvent 0)] ?_
  decide

/-- C2: the `Present` transaction.  The body `f` runs exactly when `Clear`
and the white `Background` both succeeded; the buffer flip happens exactly
when `Clear`, `Background` and `f` all succeeded (and then the renderer calls
are, in order, clear, set-colour white, fill, flip); the returned value is
nil exactly when the buffer was flipped, and every returned error is a
wrapped error with the buffer not flipped and no flip call made. -/
theorem sdl2_present_transaction (s : Sdl2Draw) (f : Unit → Except Err Unit) :
    ((s.PresentT f).fInvoked = true ↔
      s.r.clearRes = .ok () ∧ s.Background ColorWhite = .ok ()) ∧
    ((s.PresentT f).flipped = true ↔
      s.r.clearRes = .ok () ∧ s.Background ColorWhite = .ok () ∧ f () = .ok ()) ∧
    ((s.PresentT f).res = .ok () ↔ (s.PresentT f).flipped = true) ∧
    (s.r.clearRes = .ok () → s.Background ColorWhite = .ok () → f () = .ok () →
      (s.PresentT f).calls =
        [RCall.clear, RCall.setDrawColor ColorWhite, RCall.fillRectNone, RCall.flip]) ∧
    (∀ e, (s.PresentT f).res = .error e →
      (s.PresentT f).flipped = false ∧ (∃ m e2, e = Err.wrap m e2) ∧
        RCall.flip ∉ (s.PresentT f).calls) := by
  rcases hc : s.r.clearRes with ec | uc
  · simp [Sdl2Draw.PresentT, Sdl2Draw.Background, Sdl2Draw.BackgroundT, hc]
  · cases uc
    rcases hsd : s.r.setDrawColorRes ColorWhite with esd | usd
    · simp [Sdl2Draw.PresentT, Sdl2Draw.Background, Sdl2Draw.BackgroundT, hc, hsd]
    · cases usd
      rcases hfr : s.r.fillRectNoneRes with efr | ufr
      · simp [Sdl2Draw.PresentT, Sdl2Draw.Background, Sdl2Draw.BackgroundT, hc, hsd, hfr]
      · cases ufr
        rcases hf : f () with ef | uf
        · simp [Sdl2Draw.PresentT, Sdl2Draw.Background, Sdl2Draw.BackgroundT, hc, hsd, hfr, hf]
        · cases uf
          simp [Sdl2Draw.PresentT, Sdl2Draw.Background, Sdl2Draw.BackgroundT, hc, hsd, hfr, hf]

/-- C2 witness: with a failing `Clear`, `Present` returns a wrapped error,
does not flip the buffer, and makes no flip call. -/
theorem sdl2_present_transaction_witness :
    (badClearDrawer.PresentT okBody).flipped = false ∧
      (∃ m e2, Err.wrap "could not clear the renderer" (Err.str "boom") = Err.wrap m e2) ∧
      RCall.flip ∉ (badClearDrawer.PresentT okBody).calls :=
  (sdl2_present_transaction badClearDrawer okBody).2.2.2.2
    (Err.wrap "could not clear the renderer" (Err.str "boom")) rfl

/-- C9: `SetMainFont` fails exactly when the named font is not among the
loaded fonts, and then the drawer (in particular its main font) is returned
unchanged; when the font is loaded, the result is nil and the main font
becomes the given name. -/
theorem sdl2_setMainFont_spec (s : Sdl2Draw) (n : String) :
    (s.fonts.contains n = false →
      s.SetMainFont n = (.error (Err.str ("font " ++ n ++ " is not loaded")), s)) ∧
    (s.fonts.contains n = true →
      s.SetMainFont n = (.ok (), { s with mainFont := n })) := by
  constructor <;> intro h
  · have h2 : ¬ n ∈ s.fonts := by simpa using h
    simp [Sdl2Draw.SetMainFont, h2]
  · have h2 : n ∈ s.fonts := by simpa using h
    simp [Sdl2Draw.SetMainFont, h2]

/-- C9 witness: asking for a font that is not loaded yields the error and
leaves the drawer unchanged. -/
theorem sdl2_setMainFont_spec_witness :
    okDrawer.SetMainFont "missing.ttf" =
      (.error (Err.str ("font " ++ "missing.ttf" ++ " is not loaded")), okDrawer) :=
  (sdl2_setMainFont_spec okDrawer "missing.ttf").1 (by decide)

theorem colorRect_struct_unchanged (s : Sdl2Draw) (x y rw rh : Int) (rgba : RGBA) :
    (s.ColorRect x y rw rh rgba).2 = s := by
  rcases h1 : s.r.setDrawColorRes rgba with e | u <;> simp [Sdl2Draw.ColorRect, h1]
  rcases h2 : s.r.fillRectRes ⟨x, y, rw, rh⟩ with e | u <;> simp [h2]

theorem textureRect_struct_unchanged (s : Sdl2Draw) (x y rw rh : Int) (t : String) :
    (s.TextureRect x y rw rh t).2 = s := by
  by_cases h1 : t ∈ s.textures
  · rcases h2 : s.r.copyRes with e | u <;> simp [Sdl2Draw.TextureRect, h1, h2]
  · simp [Sdl2Draw.TextureRect, h1]

theorem text_struct_unchanged (s : Sdl2Draw) (txt : String) (opts : TextOpts) :
    (s.Text txt opts).2 = s := by
  rcases h1 : s.r.renderTextRes with e | u <;> simp [Sdl2Draw.Text, h1]
  rcases h2 : s.r.createTextureRes with e | u <;> simp [h2]
  rcases h3 : s.r.destroyTextureRes with e | u <;> simp [h3]

theorem loadResources_dims_unchanged (s : Sdl2Draw)
    (td fd : Except Err (List (String × Bool)))
    (li ct opf : String → Except Err Unit) :
    (s.LoadResources td fd li ct opf).2.w = s.w ∧
    (s.LoadResources td fd li ct opf).2.h = s.h := by
  rcases td with e | te
  · exact ⟨rfl, rfl⟩
  · simp only [Sdl2Draw.LoadResources]
    rcases h1 : (loadTexturesLoop li ct s.textures te).1 with e1 | u1
    · simp [h1]
    · rcases fd with e2 | fe
      · simp [h1]
      · rcases h3 : (loadFontsLoop opf s.fonts fe).1 with e3 | u3 <;> simp [h1, h3]

/-- C10: `ScreenWidth` and `ScreenHeight` return exactly the dimensions that
`NewSdl2Draw` was given, and no drawer operation — rectangle drawing, text,
resource loading, or font selection — changes those two fields. -/
theorem sdl2_screen_dims_constant (font : String) (w h : Int) (r : Renderer) :
    ((NewSdl2Draw font w h (.ok r)).map Sdl2Draw.ScreenWidth = .ok w ∧
      (NewSdl2Draw font w h (.ok r)).map Sdl2Draw.ScreenHeight = .ok h) ∧
    (∀ (s : Sdl2Draw) (x y rw rh : Int) (rgba : RGBA),
      (s.ColorRect x y rw rh rgba).2.ScreenWidth = s.ScreenWidth ∧
      (s.ColorRect x y rw rh rgba).2.ScreenHeight = s.ScreenHeight) ∧
    (∀ (s : Sdl2Draw) (x y rw rh : Int) (t : String),
      (s.TextureRect x y rw rh t).2.ScreenWidth = s.ScreenWidth ∧
      (s.TextureRect x y rw rh t).2.ScreenHeight = s.ScreenHeight) ∧
    (∀ (s : Sdl2Draw) (txt : String) (opts : TextOpts),
      (s.Text txt opts).2.ScreenWidth = s.ScreenWidth ∧
      (s.Text txt opts).2.ScreenHeight = s.ScreenHeight) ∧
    (∀ (s : Sdl2Draw) (n : String),
      (s.SetMainFont n).2.ScreenWidth = s.ScreenWidth ∧
      (s.SetMainFont n).2.ScreenHeight = s.ScreenHeight) ∧
    (∀ (s : Sdl2Draw) (td fd : Except Err (List (String × Bool)))
        (li ct opf : String → Except Err Unit),
      (s.LoadResources td fd li ct opf).2.ScreenWidth = s.ScreenWidth ∧
      (s.LoadResources td fd li ct opf).2.ScreenHeight = s.ScreenHeight) := by
  refine ⟨⟨rfl, rfl⟩, ?_, ?_, ?_, ?_, ?_⟩
  · intro s x y rw rh rgba
    rw [colorRect_struct_unchanged]
    exact ⟨rfl, rfl⟩
  · intro s x y rw rh t
    rw [textureRect_struct_unchanged]
    exact ⟨rfl, rfl⟩
  · intro s txt opts
    rw [text_struct_unchanged]
    exact ⟨rfl, rfl⟩
  · intro s n
    by_cases h : n ∈ s.fonts <;>
      simp [Sdl2Draw.SetMainFont, h, Sdl2Draw.ScreenWidth, Sdl2Draw.ScreenHeight]
  · intro s td fd li ct opf
    exact loadResources_dims_unchanged s td fd li ct opf

/-- C3: the render pass.  When the transaction's clear and background steps
succeed, the body paints the active set in order: if every object succeeds
the whole set is painted and the buffer flipped; the first failing object
aborts the remaining paints, the frame is not flipped, and `Scene.paint`
returns the failure wrapped step by step ("failed to paint", the `Present`
wrap, "failed to present").  A tick whose render pass fails sends exactly
that wrapped error on the error channel, and the loop continues with the
next work item instead of retrying the frame. -/
theorem scene_render_pass_errors :
    (∀ (s : Scene) (pre post : List GameObject) (o : GameObject) (e : Err),
      s.drawer.r.clearRes = .ok () →
      s.drawer.Background ColorWhite = .ok () →
      lookupPaints s.paints s.state = pre ++ o :: post →
      (∀ o2 ∈ pre, o2.paintRes = .ok ()) →
      o.paintRes = .error e →
      s.paintT = { res := .error (Err.wrap "failed to present"
                      (Err.wrap "could not execute user given function"
                        (Err.wrap "failed to paint" e))),
                   painted := pre.map GameObject.id ++ [o.id],
                   flipped := false }) ∧
    (∀ (s : Scene),
      s.drawer.r.clearRes = .ok () →
      s.drawer.Background ColorWhite = .ok () →
      (∀ o2 ∈ lookupPaints s.paints s.state, o2.paintRes = .ok ()) →
      s.paintT = { res := .ok (),
                   painted := (lookupPaints s.paints s.state).map GameObject.id,
                   flipped := true }) ∧
    (∀ (s : Scene) (ws : List WorkItem) (err : Err),
      Scene.paint { s with state := s.update } = .error err →
      (loopIter s WorkItem.tick).2.emitted = some err ∧
      loopRun s (WorkItem.tick :: ws) =
        ((loopRun { s with state := s.update } ws).1,
          (loopIter s WorkItem.tick).2 :: (loopRun { s with state := s.update } ws).2)) := by
  refine ⟨?_, ?_, ?_⟩
  · intro s pre post o e hclear hbg hsplit hpre ho
    have hbody : paintBodyT (lookupPaints s.paints s.state) =
        (.error (Err.wrap "failed to paint" e), pre.map GameObject.id ++ [o.id]) := by
      rw [hsplit, paintBodyT_append_of_ok pre (o :: post) hpre]
      simp [paintBodyT, ho]
    have hbg2 : (s.drawer.BackgroundT ColorWhite).1 = .ok () := hbg
    simp [Scene.paintT, hbody, Sdl2Draw.PresentT, hclear, hbg2]
  · intro s hclear hbg hall
    have hbody : paintBodyT (lookupPaints s.paints s.state) =
        (.ok (), (lookupPaints s.paints s.state).map GameObject.id) := by
      have h := paintBodyT_append_of_ok (lookupPaints s.paints s.state) [] hall
      simpa [paintBodyT] using h
    have hbg2 : (s.drawer.BackgroundT ColorWhite).1 = .ok () := hbg
    simp [Scene.paintT, hbody, Sdl2Draw.PresentT, hclear, hbg2]
  · intro s ws err herr
    have hemit : (loopIter s WorkItem.tick).2.emitted = some err := by
      simp only [loopIter]
      rw [show ({ s with state := s.update } : Scene).paintT.res =
        Scene.paint { s with state := s.update } from rfl, herr]
    refine ⟨hemit, ?_⟩
    have hexit : (loopIter s WorkItem.tick).2.exited = false := rfl
    simp only [loopRun, hexit]
    rfl

/-- C3 witness: in a scene whose second active object fails to paint, the
tick emits onto the error channel the triply wrapped paint error, after
painting only the first object, and the loop then continues. -/
theorem scene_render_pass_errors_witness :
    failScene.paintT = { res := Except.error (Err.wrap "failed to present"
                           (Err.wrap "could not execute user given function"
                             (Err.wrap "failed to paint" (Err.str "disk full")))),
                         painted := [1, 3],
                         flipped := false } := by
  have h := scene_render_pass_errors.1 failScene [menuStartObj] [] badPaintObj
    (Err.str "disk full") rfl rfl rfl (by simp [menuStartObj]) rfl
  simpa [menuStartObj, badPaintObj] using h
